import Mathlib

/-!
Verification development for the TileDB-Go query layer (query.go, enums.go).

The Go code marshals typed Go slices into the untyped byte-buffer contract of
the TileDB storage engine. We embed the relevant functions shallowly:

* Go reflect kinds become the inductive type Kind; a dynamically typed Go
  value (the empty interface) becomes GoValue, carrying its reflect kind and,
  for slices, the element kind and the element list. Element contents are
  represented as raw Nat values since no embedded function inspects them.
* The engine C calls are opaque: each call site takes its return status (and
  any engine-reported sizes) as an explicit parameter. The engine range
  registry consulted by tiledb_query_add_range, tiledb_query_add_range_var and
  tiledb_query_get_range_num is modelled from the spec as a per-dimension
  accumulating list (EngineState).
* Go methods that mutate the receiver are embedded in state-passing style:
  they return the updated Query together with an Except result, so that the
  post-state of failing calls is observable.
* Machine integers are Nat; all byte sizes fit far below 2 to the 64 in every
  statement we make, so wrap-around is not modelled.
-/

set_option autoImplicit false

deriving instance DecidableEq for Except

namespace TileDB

/-- Go reflect.Kind, restricted to the kinds that appear in query.go.
Kind.ifc stands for reflect.Interface, the default result of ReflectKind. -/
inductive Kind where
  | int | int8 | int16 | int32 | int64
  | uint | uint8 | uint16 | uint32 | uint64
  | float32 | float64
  | slice | ifc
  deriving DecidableEq, Repr

/-- Datatype enum from enums.go, together with the datetime variants that
query.go references (their constant declarations live in a file of the
repository that is not part of this snapshot; the variants themselves are
fixed vocabulary). -/
inductive Datatype where
  | int32 | int64 | float32 | float64 | char
  | int8 | uint8 | int16 | uint16 | uint32 | uint64
  | stringAscii | stringUtf8 | stringUtf16 | stringUtf32
  | stringUcs2 | stringUcs4 | any
  | datetimeYear | datetimeMonth | datetimeWeek | datetimeDay
  | datetimeHr | datetimeMin | datetimeSec | datetimeMs
  | datetimeUs | datetimeNs | datetimePs | datetimeFs | datetimeAs
  deriving DecidableEq, Repr

/-- Datatype.ReflectKind from enums.go. Note that TILEDB_CHAR, TILEDB_ANY and
every datetime variant fall through to the default arm, which returns
reflect.Interface. -/
def Datatype.ReflectKind : Datatype → Kind
  | .int8 => .int8
  | .int16 => .int16
  | .int32 => .int32
  | .int64 => .int64
  | .uint8 => .uint8
  | .uint16 => .uint16
  | .uint32 => .uint32
  | .uint64 => .uint64
  | .float32 => .float32
  | .float64 => .float64
  | .stringAscii => .uint8
  | .stringUtf8 => .uint8
  | .stringUtf16 => .uint16
  | .stringUtf32 => .uint32
  | .stringUcs2 => .uint16
  | .stringUcs4 => .uint32
  | _ => .ifc

/-- Modelled from the spec: widthOf (Datatype.Size in the repository, whose
defining file is not part of this snapshot). Each datatype maps to its fixed
byte width; the catch-all any type has no fixed width and must not be divided
against, so it maps to none (UnsupportedType). Datetime variants share the
representation of a 64-bit signed integer. -/
def Datatype.Size : Datatype → Option Nat
  | .int8 | .uint8 | .char | .stringAscii | .stringUtf8 => some 1
  | .int16 | .uint16 | .stringUtf16 | .stringUcs2 => some 2
  | .int32 | .uint32 | .float32 | .stringUtf32 | .stringUcs4 => some 4
  | .int64 | .uint64 | .float64 => some 8
  | .datetimeYear | .datetimeMonth | .datetimeWeek | .datetimeDay
  | .datetimeHr | .datetimeMin | .datetimeSec | .datetimeMs
  | .datetimeUs | .datetimeNs | .datetimePs | .datetimeFs | .datetimeAs => some 8
  | .any => none

/-- Modelled from the spec: the well-known coordinate sentinel name
TILEDB_COORDS (its constant declaration lives in a file of the repository
that is not part of this snapshot). -/
def TILEDB_COORDS : String := "__coords"

/-- TILEDB_VAR_NUM sentinel for variable-sized cell values (uint32 max). -/
def TILEDB_VAR_NUM : Nat := 4294967295

/-- A dynamically typed Go value as seen through reflect: either a scalar of
some kind, or a slice with an element kind and element list. Element values
are raw Nat representations; nothing in the embedded code reads them except
the byte contents of range slices, which are passed through verbatim. -/
inductive GoValue where
  | scalar (kind : Kind) (val : Nat)
  | slice (elemKind : Kind) (data : List Nat)
  deriving DecidableEq, Repr

/-- reflect.ValueOf(v).Kind() for a GoValue. -/
def GoValue.kind : GoValue → Kind
  | .scalar k _ => k
  | .slice _ _ => .slice

/-- A dimension of the domain: name, datatype and cell value number. -/
structure Dimension where
  name : String
  dtype : Datatype
  cellValNum : Nat
  deriving DecidableEq, Repr

/-- The domain of an array schema: its own datatype and its dimensions. -/
structure Domain where
  dtype : Datatype
  dims : List Dimension
  deriving DecidableEq, Repr

/-- A named attribute of the schema. -/
structure Attribute where
  name : String
  dtype : Datatype
  deriving DecidableEq, Repr

/-- The immutable array schema consulted by the buffer operations. -/
structure ArraySchema where
  domain : Domain
  attributes : List Attribute
  deriving DecidableEq, Repr

/-- Domain.HasDimension by name. -/
def Domain.HasDimension (d : Domain) (name : String) : Bool :=
  d.dims.any (fun dim => dim.name = name)

/-- Domain.DimensionFromName. -/
def Domain.DimensionFromName (d : Domain) (name : String) : Option Dimension :=
  d.dims.find? (fun dim => dim.name = name)

/-- Domain.DimensionFromIndex. -/
def Domain.DimensionFromIndex (d : Domain) (idx : Nat) : Option Dimension :=
  d.dims.get? idx

/-- ArraySchema.AttributeFromName. -/
def ArraySchema.AttributeFromName (s : ArraySchema) (name : String) : Option Attribute :=
  s.attributes.find? (fun a => a.name = name)

/-- Error classes of the query layer. Each constructor stands for one family
of error messages produced in query.go (or, for engineFailure, for the
propagated engine last-error text); panicked stands for a Go runtime panic
(failed type assertion or out-of-range index). -/
inductive QueryError where
  | notSlice
  | typeMismatch
  | emptyBuffer
  | unrecognizedType
  | unsupportedType
  | schemaUnavailable
  | notFound
  | engineFailure
  | panicked
  deriving DecidableEq, Repr

/-- Field-name resolution shared by SetBuffer, Buffer, BufferVar, BufferSize
and BufferSizeVar (query.go repeats this block inline in each of them):
the coordinate sentinel resolves to the domain datatype; otherwise a
dimension lookup by name is tried first, then an attribute lookup; an
unmatched name is an error. -/
def resolveFieldType (schema : ArraySchema) (name : String) : Except QueryError Datatype :=
  if name = TILEDB_COORDS then
    .ok schema.domain.dtype
  else if schema.domain.HasDimension name then
    match schema.domain.DimensionFromName name with
    | some dim => .ok dim.dtype
    | none => .error .notFound
  else
    match schema.AttributeFromName name with
    | some attr => .ok attr.dtype
    | none => .error .notFound

/-- goElemSize k is the element byte width used by the switch over buffer
element kinds in SetBuffer and SetBufferVar: each recognized arm multiplies
the element count by unsafe.Sizeof of the corresponding Go type (Go int and
uint are 8 bytes on the supported 64-bit platforms); the default arm, here
none, is the unrecognized-buffer-type error. -/
def Kind.goElemSize : Kind → Option Nat
  | .int => some 8
  | .int8 => some 1
  | .int16 => some 2
  | .int32 => some 4
  | .int64 => some 8
  | .uint => some 8
  | .uint8 => some 1
  | .uint16 => some 2
  | .uint32 => some 4
  | .uint64 => some 8
  | .float32 => some 4
  | .float64 => some 8
  | _ => none

/-- The mutable part of a Query: the engine handle (tiledbQuery pointer,
none once freed), the pinning table buffers, and resultBufferElements. The
Go map entries hold a pair of uint64 pointers, the first possibly nil; an
entry here holds (offset byte count if an offsets buffer was registered,
data byte count). -/
structure Query where
  handle : Option Unit
  buffers : List GoValue
  resultBufferElements : List (String × (Option Nat × Nat))
  deriving DecidableEq, Repr

/-- Assignment into the resultBufferElements map: replace the entry with the
given key if present, else append it. -/
def setAssoc (m : List (String × (Option Nat × Nat))) (k : String)
    (v : Option Nat × Nat) : List (String × (Option Nat × Nat)) :=
  match m with
  | [] => [(k, v)]
  | (k2, v2) :: rest =>
    if k2 = k then (k, v) :: rest else (k2, v2) :: setAssoc rest k v

/-- Query.SetBuffer (query.go lines 211 to 425), in state-passing style.

schemaRes is the result of q.array.Schema() together with schema.Domain()
and the per-field Type() calls, all of which are opaque C lookups: none
stands for any of them failing. engineOk is the status returned by
tiledb_query_set_buffer. The checks appear in source order: slice check,
schema and domain fetch, field resolution (coordinate sentinel, then
dimension, then attribute), buffer element kind versus field datatype kind,
empty buffer, then the switch over element kinds which computes the byte
size and appends the slice to the pinning table before the engine call.
On engine failure the function returns an error with the slice already
appended; on success it records (nil, byteSize) in resultBufferElements
and returns the byte size. -/
def Query.SetBuffer (q : Query) (schemaRes : Option ArraySchema) (engineOk : Bool)
    (attributeOrDimension : String) (buffer : GoValue) :
    Query × Except QueryError Nat :=
  match buffer with
  | .scalar _ _ => (q, .error .notSlice)
  | .slice elemKind data =>
    match schemaRes with
    | none => (q, .error .schemaUnavailable)
    | some schema =>
      match resolveFieldType schema attributeOrDimension with
      | .error e => (q, .error e)
      | .ok attributeOrDimensionType =>
        if attributeOrDimensionType.ReflectKind ≠ elemKind then
          (q, .error .typeMismatch)
        else
          let bufferSize := data.length
          if bufferSize = 0 then
            (q, .error .emptyBuffer)
          else
            match elemKind.goElemSize with
            | none => (q, .error .unrecognizedType)
            | some elemSize =>
              let bufferSize := bufferSize * elemSize
              let q := { q with buffers := q.buffers ++ [buffer] }
              if !engineOk then
                (q, .error .engineFailure)
              else
                let m := setAssoc q.resultBufferElements attributeOrDimension
                  (none, bufferSize)
                ({ q with resultBufferElements := m }, .ok bufferSize)

/-- Field-name resolution in Query.SetBufferVar (query.go lines 1024 to
1052): unlike the fixed path there is no coordinate-sentinel branch;
dimension lookup is tried first, then attribute lookup. -/
def resolveVarFieldType (schema : ArraySchema) (name : String) :
    Except QueryError Datatype :=
  if schema.domain.HasDimension name then
    match schema.domain.DimensionFromName name with
    | some dim => .ok dim.dtype
    | none => .error .notFound
  else
    match schema.AttributeFromName name with
    | some attr => .ok attr.dtype
    | none => .error .notFound

/-- Query.SetBufferVar (query.go lines 999 to 1220), in state-passing style.

Field resolution here has no coordinate-sentinel branch: dimension lookup,
then attribute lookup. The checks appear in source order: slice check,
schema and domain fetch, field resolution, element kind versus datatype
kind, empty data buffer, empty offsets buffer. The offsets slice is
appended to the pinning table before the element-kind switch, so the
unrecognized-kind error and the engine-failure error both leave it
appended; the data slice is appended inside the switch, before the engine
call. On success the entry (offsetByteSize, dataByteSize) is recorded. -/
def Query.SetBufferVar (q : Query) (schemaRes : Option ArraySchema) (engineOk : Bool)
    (attributeOrDimension : String) (offset : List Nat) (buffer : GoValue) :
    Query × Except QueryError (Nat × Nat) :=
  match buffer with
  | .scalar _ _ => (q, .error .notSlice)
  | .slice elemKind data =>
    match schemaRes with
    | none => (q, .error .schemaUnavailable)
    | some schema =>
      match resolveVarFieldType schema attributeOrDimension with
      | .error e => (q, .error e)
      | .ok attributeOrDimensionType =>
        if attributeOrDimensionType.ReflectKind ≠ elemKind then
          (q, .error .typeMismatch)
        else
          let bufferSize := data.length
          if bufferSize = 0 then
            (q, .error .emptyBuffer)
          else
            let offsetSize := offset.length * 8
            if offsetSize = 0 then
              (q, .error .emptyBuffer)
            else
              let q := { q with buffers := q.buffers ++ [GoValue.slice .uint64 offset] }
              match elemKind.goElemSize with
              | none => (q, .error .unrecognizedType)
              | some elemSize =>
                let bufferSize := bufferSize * elemSize
                let q := { q with buffers := q.buffers ++ [buffer] }
                if !engineOk then
                  (q, .error .engineFailure)
                else
                  let m := setAssoc q.resultBufferElements attributeOrDimension
                    (some offsetSize, bufferSize)
                  ({ q with resultBufferElements := m }, .ok (offsetSize, bufferSize))

/-- A range registered with the engine: a scalar pair for
tiledb_query_add_range, a byte-sequence pair for tiledb_query_add_range_var. -/
inductive EngineRange where
  | scalarPair (s e : Nat)
  | varPair (s e : List Nat)
  deriving DecidableEq, Repr

/-- Modelled from the spec: the engine subarray range registry behind
tiledb_query_add_range, tiledb_query_add_range_var and
tiledb_query_get_range_num. Ranges accumulate per dimension index in
registration order. -/
structure EngineState where
  ranges : List (Nat × EngineRange)
  deriving DecidableEq, Repr

/-- Modelled from the spec: tiledb_query_get_range_num counts the ranges
registered on the given dimension. -/
def EngineState.rangeNum (e : EngineState) (dimIdx : Nat) : Nat :=
  (e.ranges.filter (fun r => r.fst = dimIdx)).length

/-- Query.AddRange (query.go lines 431 to 523). The function compares the
reflect kinds of start and end, then switches on the start kind: each of
the twelve recognized scalar kinds passes the value pair to
tiledb_query_add_range (modelled as appending to the engine range registry
when engineOk, and as the engine-failure error otherwise); any other kind
is the unrecognized-type error. The array schema is never consulted. -/
def Query.AddRange (e : EngineState) (engineOk : Bool) (dimIdx : Nat)
    (start finish : GoValue) : EngineState × Except QueryError Unit :=
  if start.kind ≠ finish.kind then
    (e, .error .typeMismatch)
  else
    match start, finish with
    | .scalar k s, .scalar _ f =>
      match k.goElemSize with
      | some _ =>
        if engineOk then
          ({ ranges := e.ranges ++ [(dimIdx, .scalarPair s f)] }, .ok ())
        else
          (e, .error .engineFailure)
      | none => (e, .error .unrecognizedType)
    | _, _ => (e, .error .unrecognizedType)

/-- Query.AddRangeVar (query.go lines 527 to 604). Both arguments must be
slices; the switch on the start element kind rejects every recognized
non-byte kind with the unsupported-type error and unknown kinds with the
unrecognized-type error; only the uint8 arm reaches
tiledb_query_add_range_var (modelled as appending a byte-range pair when
engineOk). In the uint8 arm the Go code type-asserts end to a byte slice
and takes the address of the first element of each slice, so an end slice
of another element kind, or an empty start or end slice, panics. -/
def Query.AddRangeVar (e : EngineState) (engineOk : Bool) (dimIdx : Nat)
    (start finish : GoValue) : EngineState × Except QueryError Unit :=
  match start with
  | .scalar _ _ => (e, .error .notSlice)
  | .slice startKind startData =>
    match finish with
    | .scalar _ _ => (e, .error .notSlice)
    | .slice endKind endData =>
      match startKind with
      | .int | .int8 | .int16 | .int32 | .int64
      | .uint | .uint16 | .uint32 | .uint64
      | .float32 | .float64 => (e, .error .unsupportedType)
      | .uint8 =>
        if endKind ≠ Kind.uint8 then
          (e, .error .panicked)
        else if startData.length = 0 ∨ endData.length = 0 then
          (e, .error .panicked)
        else if engineOk then
          ({ ranges := e.ranges ++ [(dimIdx, .varPair startData endData)] }, .ok ())
        else
          (e, .error .engineFailure)
      | _ => (e, .error .unrecognizedType)

/-- Query.GetRangeNum (query.go lines 800 to 813): returns the engine range
count for the dimension, or the engine-failure error when the C call fails. -/
def Query.GetRangeNum (e : EngineState) (engineOk : Bool) (dimIdx : Nat) :
    Except QueryError Nat :=
  if engineOk then .ok (e.rangeNum dimIdx) else .error .engineFailure

/-- Query.Free (query.go lines 84 to 92), returning the updated query and
whether the engine handle was released by this call. Free clears the
pinning table and the result table and, when the handle is non-nil, calls
tiledb_query_free, which releases the handle and nulls the pointer
(modelled from the spec: idempotent teardown of the C handle). -/
def Query.Free (q : Query) : Query × Bool :=
  let q := { q with buffers := [], resultBufferElements := [] }
  match q.handle with
  | some _ => ({ q with handle := none }, true)
  | none => (q, false)

/-- Engine responses consumed by GetRange: the status and reported sizes of
tiledb_query_get_range_var_size, the status and written byte contents of
tiledb_query_get_range_var, and the status and raw scalar values exposed by
tiledb_query_get_range. All are opaque engine outputs. -/
structure RangeEngine where
  varSizeOk : Bool
  varStartSize : Nat
  varEndSize : Nat
  varOk : Bool
  varStartData : List Nat
  varEndData : List Nat
  fixedOk : Bool
  fixedStart : Nat
  fixedEnd : Nat
  deriving DecidableEq, Repr

/-- Query.GetRange (query.go lines 610 to 725). The dimension datatype and
cell value number are fetched from the schema by index. A variable-sized
dimension takes the var path: query the byte sizes, allocate buffers of
exactly those sizes, read the raw range into them (taking the address of the
first element, which panics when a reported size is zero) and return byte
slices. A fixed dimension reads a raw scalar pair and interprets it by the
dimension datatype; the datetime variants are read exactly as a 64-bit
signed integer and TILEDB_STRING_ASCII as a uint8; any other datatype is
the unrecognized-dimension-type error. -/
def Query.GetRange (schemaRes : Option ArraySchema) (re : RangeEngine)
    (dimIdx : Nat) (rangeNum : Nat) : Except QueryError (GoValue × GoValue) :=
  match schemaRes with
  | none => .error .schemaUnavailable
  | some schema =>
    match schema.domain.DimensionFromIndex dimIdx with
    | none => .error .notFound
    | some dimension =>
      let datatype := dimension.dtype
      let cellValNum := dimension.cellValNum
      if cellValNum = TILEDB_VAR_NUM then
        if !re.varSizeOk then .error .engineFailure
        else if re.varStartSize = 0 ∨ re.varEndSize = 0 then .error .panicked
        else if !re.varOk then .error .engineFailure
        else .ok (.slice .uint8 re.varStartData, .slice .uint8 re.varEndData)
      else
        if !re.fixedOk then .error .engineFailure
        else
          match datatype with
          | .int8 => .ok (.scalar .int8 re.fixedStart, .scalar .int8 re.fixedEnd)
          | .int16 => .ok (.scalar .int16 re.fixedStart, .scalar .int16 re.fixedEnd)
          | .int32 => .ok (.scalar .int32 re.fixedStart, .scalar .int32 re.fixedEnd)
          | .int64 | .datetimeYear | .datetimeMonth | .datetimeWeek | .datetimeDay
          | .datetimeHr | .datetimeMin | .datetimeSec | .datetimeMs
          | .datetimeUs | .datetimeNs | .datetimePs | .datetimeFs | .datetimeAs =>
            .ok (.scalar .int64 re.fixedStart, .scalar .int64 re.fixedEnd)
          | .uint8 => .ok (.scalar .uint8 re.fixedStart, .scalar .uint8 re.fixedEnd)
          | .uint16 => .ok (.scalar .uint16 re.fixedStart, .scalar .uint16 re.fixedEnd)
          | .uint32 => .ok (.scalar .uint32 re.fixedStart, .scalar .uint32 re.fixedEnd)
          | .uint64 => .ok (.scalar .uint64 re.fixedStart, .scalar .uint64 re.fixedEnd)
          | .float32 => .ok (.scalar .float32 re.fixedStart, .scalar .float32 re.fixedEnd)
          | .float64 => .ok (.scalar .float64 re.fixedStart, .scalar .float64 re.fixedEnd)
          | .stringAscii => .ok (.scalar .uint8 re.fixedStart, .scalar .uint8 re.fixedEnd)
          | _ => .error .unrecognizedType

/-- Query.GetRangeVar (query.go lines 732 to 734): delegates to GetRange
with the same arguments. -/
def Query.GetRangeVar (schemaRes : Option ArraySchema) (re : RangeEngine)
    (dimIdx : Nat) (rangeNum : Nat) : Except QueryError (GoValue × GoValue) :=
  Query.GetRange schemaRes re dimIdx rangeNum

/-- The typed zero-copy view built by Query.Buffer: the element kind of the
returned slice header and its length. The engine-owned memory behind it is
opaque, so contents are not modelled. -/
structure BufferView where
  elemKind : Kind
  length : Nat
  deriving DecidableEq, Repr

/-- The switch over the resolved datatype in Query.Buffer (query.go lines
871 to 964): every arm calls tiledb_query_get_buffer and slices the
returned engine pointer to the reported byte count divided by the element
width of the view type. TILEDB_CHAR views as a byte slice; the string types
view as their code-unit type; TILEDB_ANY views as an int8 slice whose
length is the byte count divided by four, exactly as in the source. -/
def bufferViewOf (datatype : Datatype) (cbufferSize : Nat) : BufferView :=
  match datatype with
  | .int8 => ⟨.int8, cbufferSize / 1⟩
  | .int16 => ⟨.int16, cbufferSize / 2⟩
  | .int32 => ⟨.int32, cbufferSize / 4⟩
  | .int64 | .datetimeYear | .datetimeMonth | .datetimeWeek | .datetimeDay
  | .datetimeHr | .datetimeMin | .datetimeSec | .datetimeMs
  | .datetimeUs | .datetimeNs | .datetimePs | .datetimeFs | .datetimeAs =>
    ⟨.int64, cbufferSize / 8⟩
  | .uint8 => ⟨.uint8, cbufferSize / 1⟩
  | .uint16 => ⟨.uint16, cbufferSize / 2⟩
  | .uint32 => ⟨.uint32, cbufferSize / 4⟩
  | .uint64 => ⟨.uint64, cbufferSize / 8⟩
  | .float32 => ⟨.float32, cbufferSize / 4⟩
  | .float64 => ⟨.float64, cbufferSize / 8⟩
  | .char => ⟨.uint8, cbufferSize / 1⟩
  | .stringAscii => ⟨.uint8, cbufferSize / 1⟩
  | .stringUtf8 => ⟨.uint8, cbufferSize / 1⟩
  | .stringUtf16 => ⟨.uint16, cbufferSize / 2⟩
  | .stringUtf32 => ⟨.uint32, cbufferSize / 4⟩
  | .stringUcs2 => ⟨.uint16, cbufferSize / 2⟩
  | .stringUcs4 => ⟨.uint32, cbufferSize / 4⟩
  | .any => ⟨.int8, cbufferSize / 4⟩

/-- Query.Buffer (query.go lines 816 to 970). Field resolution is the shared
coordinate-sentinel, dimension, attribute order; then the per-datatype view
switch, then the engine status check that follows the switch in the source. -/
def Query.Buffer (schemaRes : Option ArraySchema) (engineOk : Bool)
    (cbufferSize : Nat) (attributeOrDimension : String) :
    Except QueryError BufferView :=
  match schemaRes with
  | none => .error .schemaUnavailable
  | some schema =>
    match resolveFieldType schema attributeOrDimension with
    | .error e => .error e
    | .ok datatype =>
      let view : BufferView := bufferViewOf datatype cbufferSize
      if !engineOk then .error .engineFailure else .ok view

/-- Query.BufferSize (query.go lines 1583 to 1652). Field resolution is the
shared order; the element width comes from Datatype.Size (modelled from the
spec as failing for the widthless any type, which must not be divided
against). The engine byte-count pointer may be absent: none maps to zero
elements rather than an error. -/
def Query.BufferSize (schemaRes : Option ArraySchema) (engineOk : Bool)
    (cbufferSize : Option Nat) (attributeNameOrDimension : String) :
    Except QueryError Nat :=
  match schemaRes with
  | none => .error .schemaUnavailable
  | some schema =>
    match resolveFieldType schema attributeNameOrDimension with
    | .error e => .error e
    | .ok datatype =>
      match datatype.Size with
      | none => .error .unsupportedType
      | some dataTypeSize =>
        if !engineOk then .error .engineFailure
        else
          match cbufferSize with
          | none => .ok 0
          | some bs => .ok (bs / dataTypeSize)

/-- Query.BufferSizeVar (query.go lines 1501 to 1580). As BufferSize but via
tiledb_query_get_buffer_var, returning offset and data element counts; the
offset element width is the 8-byte uint64 width; either engine byte-count
pointer may be absent and maps to zero elements. -/
def Query.BufferSizeVar (schemaRes : Option ArraySchema) (engineOk : Bool)
    (coffsetsSize : Option Nat) (cbufferSize : Option Nat)
    (attributeOrDimension : String) : Except QueryError (Nat × Nat) :=
  match schemaRes with
  | none => .error .schemaUnavailable
  | some schema =>
    match resolveFieldType schema attributeOrDimension with
    | .error e => .error e
    | .ok datatype =>
      match datatype.Size with
      | none => .error .unsupportedType
      | some dataTypeSize =>
        let offsetTypeSize := 8
        if !engineOk then .error .engineFailure
        else
          let offsetNumElements :=
            match coffsetsSize with
            | none => 0
            | some os => os / offsetTypeSize
          let dataNumElements :=
            match cbufferSize with
            | none => 0
            | some bs => bs / dataTypeSize
          .ok (offsetNumElements, dataNumElements)

/-- One iteration of the loop in Query.ResultBufferElements (query.go lines
1243 to 1297) for a bound field name and its stored byte-count pair. The
coordinate sentinel reports zero offset elements and divides the data byte
count by the domain element width; any other field reports the stored
offset byte count divided by the 8-byte uint64 width (zero when the stored
offsets pointer is absent) and divides the data byte count by the width of
the datatype resolved through dimension lookup, then attribute lookup.
Division is by Datatype.Size, modelled from the spec as failing for the
widthless any type. The offset element count of a non-coordinate field is
the stored offset byte count divided by the 8-byte uint64 width, zero when
the stored offsets pointer is absent: -/
def offsetElementsOf (stored : Option Nat) : Nat :=
  match stored with
  | some ob => ob / 8
  | none => 0

/-- The rest of the loop body: datatype resolution and the divisions. -/
def resultElementsFor (schema : ArraySchema) (name : String)
    (v : Option Nat × Nat) : Except QueryError (Nat × Nat) :=
  if name = TILEDB_COORDS then
    match schema.domain.dtype.Size with
    | none => .error .unsupportedType
    | some w => .ok (0, v.snd / w)
  else
    if schema.domain.HasDimension name then
      match schema.domain.DimensionFromName name with
      | none => .error .notFound
      | some dim =>
        match dim.dtype.Size with
        | none => .error .unsupportedType
        | some w => .ok (offsetElementsOf v.fst, v.snd / w)
    else
      match schema.AttributeFromName name with
      | none => .error .notFound
      | some attr =>
        match attr.dtype.Size with
        | none => .error .unsupportedType
        | some w => .ok (offsetElementsOf v.fst, v.snd / w)

/-- The loop of Query.ResultBufferElements over the bound fields: collect
the derived element counts per field, stopping at the first failure. -/
def resultElementsLoop (schema : ArraySchema) :
    List (String × (Option Nat × Nat)) → Except QueryError (List (String × (Nat × Nat)))
  | [] => .ok []
  | (name, v) :: rest =>
    match resultElementsFor schema name v with
    | .error e => .error e
    | .ok r =>
      match resultElementsLoop schema rest with
      | .error e => .error e
      | .ok tail => .ok ((name, r) :: tail)

/-- Query.ResultBufferElements (query.go lines 1228 to 1301): for every
currently bound field, derive the offset and data element counts from the
stored byte counts. -/
def Query.ResultBufferElements (q : Query) (schemaRes : Option ArraySchema) :
    Except QueryError (List (String × (Nat × Nat))) :=
  match schemaRes with
  | none => .error .schemaUnavailable
  | some schema => resultElementsLoop schema q.resultBufferElements

/-- A small concrete schema used by witnesses and counterexamples: an int32
domain with two int32 dimensions and a uint32 attribute a plus a utf8
attribute v. -/
def exampleSchema : ArraySchema :=
  ⟨⟨.int32, [⟨"rows", .int32, 1⟩, ⟨"cols", .int32, 1⟩]⟩,
   [⟨"a", .uint32⟩, ⟨"v", .stringUtf8⟩]⟩

/-- A freshly created query: live handle, no pinned buffers, no bindings. -/
def emptyQuery : Query := ⟨some (), [], []⟩

/-- Whenever the element-kind switch of the bind path recognizes the reflect
kind of a datatype, the byte width it multiplies by agrees with the fixed
width of that datatype. -/
theorem goElemSize_agrees_with_Size :
    ∀ D : Datatype, (Kind.goElemSize D.ReflectKind).isSome →
      D.Size = Kind.goElemSize D.ReflectKind := by
  intro D
  cases D <;> decide

/-- HasDimension answers true exactly when DimensionFromName finds a
dimension. -/
theorem hasDimension_iff_find (d : Domain) (name : String) :
    d.HasDimension name = true ↔ ∃ dim, d.DimensionFromName name = some dim := by
  constructor
  · intro h
    rcases List.any_eq_true.mp h with ⟨dim, hmem, hname⟩
    have : (d.dims.find? (fun dim => dim.name = name)).isSome := by
      rw [List.find?_isSome]
      exact ⟨dim, hmem, hname⟩
    rcases Option.isSome_iff_exists.mp this with ⟨dim2, h2⟩
    exact ⟨dim2, h2⟩
  · rintro ⟨dim, hfind⟩
    have hmem := List.mem_of_find?_eq_some hfind
    have hname := List.find?_some hfind
    exact List.any_eq_true.mpr ⟨dim, hmem, hname⟩

/-- The only error the shared field resolution can produce is notFound. -/
theorem resolveFieldType_error_eq (schema : ArraySchema) (name : String)
    (e : QueryError) (h : resolveFieldType schema name = .error e) :
    e = .notFound := by
  unfold resolveFieldType at h
  (repeat' split at h) <;> simp_all

/-- The only error the var-path field resolution can produce is notFound. -/
theorem resolveVarFieldType_error_eq (schema : ArraySchema) (name : String)
    (e : QueryError) (h : resolveVarFieldType schema name = .error e) :
    e = .notFound := by
  unfold resolveVarFieldType at h
  (repeat' split at h) <;> simp_all

/-- Away from the coordinate sentinel, the fixed-path and var-path field
resolutions coincide. -/
theorem resolveVarFieldType_eq_resolve (schema : ArraySchema) (name : String)
    (hne : name ≠ TILEDB_COORDS) :
    resolveVarFieldType schema name = resolveFieldType schema name := by
  unfold resolveFieldType resolveVarFieldType
  rw [if_neg hne]

/-- C10: GetRangeVar returns exactly the same result as GetRange on the same
arguments, for every schema, engine response, dimension index and range
index; the two operations are extensionally equal. -/
theorem getRangeVar_eq_getRange (schemaRes : Option ArraySchema)
    (re : RangeEngine) (dimIdx rangeNum : Nat) :
    Query.GetRangeVar schemaRes re dimIdx rangeNum
      = Query.GetRange schemaRes re dimIdx rangeNum := rfl

/-- C9: Free is idempotent. The first call clears the pinning table and the
result table and releases the handle; a second call returns the same state
unchanged and reports that it released nothing, so the handle is never
released twice and the tables stay cleared. -/
theorem free_idempotent (q : Query) :
    q.Free.fst.Free = (q.Free.fst, false) ∧
    q.Free.fst.buffers = [] ∧
    q.Free.fst.resultBufferElements = [] ∧
    q.Free.fst.handle = none := by
  cases q with
  | mk handle buffers resultBufferElements =>
    cases handle <;> simp [Query.Free]

/-- C3 counterexample: the first dimension of exampleSchema has datatype
int32, whose reflect kind differs from int8, yet AddRange with an int8
start and end pair on that dimension succeeds when the engine accepts it,
instead of failing with a type-mismatch error: AddRange performs no
comparison against the dimension datatype. -/
theorem addRange_ignores_dimension_type :
    (exampleSchema.domain.DimensionFromIndex 0).map Dimension.dtype
        = some Datatype.int32 ∧
    Datatype.ReflectKind Datatype.int32 ≠ Kind.int8 ∧
    Query.AddRange ⟨[]⟩ true 0 (.scalar .int8 5) (.scalar .int8 7)
      = (⟨[(0, .scalarPair 5 7)]⟩, .ok ()) := by decide

/-- C3 amended: AddRange requires kind(start) to equal kind(end), failing
with the type-mismatch error otherwise; a recognized scalar kind is handed
to the engine regardless of the dimension datatype (with the engine
reporting success, the call succeeds and registers the pair); an
unrecognized scalar kind fails with the unrecognized-type error. No
comparison with the dimension datatype is performed at this layer. -/
theorem addRange_kind_agreement_only (e : EngineState) (engineOk : Bool)
    (dimIdx : Nat) :
    (∀ start finish : GoValue, start.kind ≠ finish.kind →
      Query.AddRange e engineOk dimIdx start finish = (e, .error .typeMismatch)) ∧
    (∀ (k : Kind) (sv fv : Nat), (Kind.goElemSize k).isSome →
      Query.AddRange e true dimIdx (.scalar k sv) (.scalar k fv)
        = ({ ranges := e.ranges ++ [(dimIdx, .scalarPair sv fv)] }, .ok ())) ∧
    (∀ (k : Kind) (sv fv : Nat), Kind.goElemSize k = none →
      Query.AddRange e engineOk dimIdx (.scalar k sv) (.scalar k fv)
        = (e, .error .unrecognizedType)) := by
  refine ⟨?_, ?_, ?_⟩
  · intro start finish hne
    unfold Query.AddRange
    simp [hne]
  · intro k sv fv hk
    unfold Query.AddRange
    rcases Option.isSome_iff_exists.mp hk with ⟨w, hw⟩
    simp [GoValue.kind, hw]
  · intro k sv fv hk
    unfold Query.AddRange
    simp [GoValue.kind, hk]

/-- C3 amended, witness at concrete inputs. -/
theorem addRange_kind_agreement_only_witness :
    Query.AddRange ⟨[]⟩ true 0 (.scalar .int32 1) (.scalar .int64 2)
      = (⟨[]⟩, .error .typeMismatch) ∧
    Query.AddRange ⟨[]⟩ true 1 (.scalar .uint16 3) (.scalar .uint16 9)
      = (⟨[(1, .scalarPair 3 9)]⟩, .ok ()) ∧
    Query.AddRange ⟨[]⟩ true 2 (.scalar .ifc 0) (.scalar .ifc 0)
      = (⟨[]⟩, .error .unrecognizedType) := by
  refine ⟨?_, ?_, ?_⟩
  · exact (addRange_kind_agreement_only ⟨[]⟩ true 0).1 _ _ (by decide)
  · exact (addRange_kind_agreement_only ⟨[]⟩ true 1).2.1 .uint16 3 9 (by decide)
  · exact (addRange_kind_agreement_only ⟨[]⟩ true 2).2.2 .ifc 0 0 (by decide)

/-- C5: AddRangeVar rejects every start and end slice pair whose element
kind is not the byte kind, for all slice contents of that kind, leaving the
engine range registry unchanged; on byte-kind non-empty start and end
slices it succeeds when the engine accepts, and the range count reported by
GetRangeNum for that dimension increases by exactly one. -/
theorem addRangeVar_byte_kind_only (e : EngineState) (engineOk : Bool)
    (dimIdx : Nat) :
    (∀ (k : Kind) (sd ed : List Nat), k ≠ Kind.uint8 →
      ∃ err, Query.AddRangeVar e engineOk dimIdx (.slice k sd) (.slice k ed)
        = (e, .error err)) ∧
    (∀ sd ed : List Nat, sd ≠ [] → ed ≠ [] →
      Query.AddRangeVar e true dimIdx (.slice .uint8 sd) (.slice .uint8 ed)
          = ({ ranges := e.ranges ++ [(dimIdx, .varPair sd ed)] }, .ok ()) ∧
      Query.GetRangeNum
          (Query.AddRangeVar e true dimIdx (.slice .uint8 sd) (.slice .uint8 ed)).fst
          true dimIdx
        = .ok (e.rangeNum dimIdx + 1)) := by
  constructor
  · intro k sd ed hk
    cases k <;> simp [Query.AddRangeVar] at hk ⊢
  · intro sd ed hsd hed
    have hstep :
        Query.AddRangeVar e true dimIdx (.slice .uint8 sd) (.slice .uint8 ed)
          = ({ ranges := e.ranges ++ [(dimIdx, .varPair sd ed)] }, .ok ()) := by
      simp [Query.AddRangeVar, hsd, hed]
    refine ⟨hstep, ?_⟩
    rw [hstep]
    simp [Query.GetRangeNum, EngineState.rangeNum, List.filter_append]

/-- C5 witness at concrete inputs. -/
theorem addRangeVar_byte_kind_only_witness :
    (∃ err, Query.AddRangeVar ⟨[]⟩ true 0 (.slice .int32 [1]) (.slice .int32 [2])
      = (⟨[]⟩, .error err)) ∧
    Query.AddRangeVar ⟨[]⟩ true 1 (.slice .uint8 [97]) (.slice .uint8 [98, 99])
        = (⟨[(1, .varPair [97] [98, 99])]⟩, .ok ()) ∧
    Query.GetRangeNum
        (Query.AddRangeVar ⟨[]⟩ true 1 (.slice .uint8 [97]) (.slice .uint8 [98, 99])).fst
        true 1
      = .ok (EngineState.rangeNum ⟨[]⟩ 1 + 1) := by
  refine ⟨?_, ?_⟩
  · exact (addRangeVar_byte_kind_only ⟨[]⟩ true 0).1 .int32 [1] [2] (by decide)
  · exact (addRangeVar_byte_kind_only ⟨[]⟩ true 1).2 [97] [98, 99]
      (by decide) (by decide)

/-- C1: a successful fixed-size bind of a buffer whose element kind
corresponds to the resolved field datatype registers and returns a byte
size equal to the width of that datatype times the element count. -/
theorem setBuffer_registered_byte_size (schema : ArraySchema) (engineOk : Bool)
    (q q2 : Query) (name : String) (D : Datatype) (data : List Nat) (s : Nat)
    (hres : resolveFieldType schema name = .ok D)
    (hn : 0 < data.length)
    (hbind : q.SetBuffer (some schema) engineOk name (.slice D.ReflectKind data)
        = (q2, .ok s)) :
    ∃ w, D.Size = some w ∧ s = w * data.length ∧
      q2.resultBufferElements = setAssoc q.resultBufferElements name (none, s) := by
  have hne : data.length ≠ 0 := Nat.pos_iff_ne_zero.mp hn
  simp only [Query.SetBuffer] at hbind
  rw [hres] at hbind
  cases hg : Kind.goElemSize (Datatype.ReflectKind D) with
  | none =>
    rw [hg] at hbind
    simp [hne] at hbind
  | some w =>
    rw [hg] at hbind
    cases engineOk with
    | false => simp [hne] at hbind
    | true =>
      simp [hne] at hbind
      obtain ⟨hq2, hs⟩ := hbind
      refine ⟨w, ?_, ?_, ?_⟩
      · rw [goElemSize_agrees_with_Size D (by rw [hg]; rfl), hg]
      · rw [Nat.mul_comm]
        omega
      · rw [← hq2]
        simp [← hs, Nat.mul_comm]


/-- C1 witness: binding four uint32 elements to attribute a of exampleSchema
registers and returns sixteen bytes. -/
theorem setBuffer_registered_byte_size_witness :
    ∃ w, Datatype.Size .uint32 = some w ∧ 16 = w * List.length [1, 2, 3, 4] ∧
      (Query.mk (some ()) [GoValue.slice .uint32 [1, 2, 3, 4]]
          [("a", (none, 16))]).resultBufferElements
        = setAssoc emptyQuery.resultBufferElements "a" (none, 16) :=
  setBuffer_registered_byte_size exampleSchema true emptyQuery
    ⟨some (), [GoValue.slice .uint32 [1, 2, 3, 4]], [("a", (none, 16))]⟩
    "a" .uint32 [1, 2, 3, 4] 16 (by decide) (by decide) (by decide)

/-- C4 counterexample: a fixed-size bind that fails with a non-ok engine
status does not leave the pinning table unchanged: the data slice stays
appended to it. -/
theorem setBuffer_engine_failure_keeps_pin :
    emptyQuery.SetBuffer (some exampleSchema) false "a"
        (.slice .uint32 [1, 2, 3, 4])
      = ({ emptyQuery with buffers := [.slice .uint32 [1, 2, 3, 4]] },
         .error .engineFailure) ∧
    ({ emptyQuery with buffers := [GoValue.slice .uint32 [1, 2, 3, 4]] } : Query)
      ≠ emptyQuery := by decide

/-- C4 amended: on every failing bind the result-size table is unchanged,
and every failure before the pin append leaves the whole query unchanged;
but a fixed-size bind failing on engine status keeps the data slice pinned,
and a variable-size bind keeps the offsets slice pinned on an
unrecognized-kind failure and both slices pinned on an engine failure. -/
theorem failed_bind_state (schemaRes : Option ArraySchema) (engineOk : Bool)
    (q : Query) (name : String) (offset : List Nat) (buffer : GoValue) :
    (∀ err, (q.SetBuffer schemaRes engineOk name buffer).snd = .error err →
      (q.SetBuffer schemaRes engineOk name buffer).fst.resultBufferElements
        = q.resultBufferElements) ∧
    (∀ err, (q.SetBufferVar schemaRes engineOk name offset buffer).snd = .error err →
      (q.SetBufferVar schemaRes engineOk name offset buffer).fst.resultBufferElements
        = q.resultBufferElements) ∧
    (∀ err, (q.SetBuffer schemaRes engineOk name buffer).snd = .error err →
      err ≠ .engineFailure →
      (q.SetBuffer schemaRes engineOk name buffer).fst = q) ∧
    ((q.SetBuffer schemaRes engineOk name buffer).snd = .error .engineFailure →
      (q.SetBuffer schemaRes engineOk name buffer).fst.buffers
        = q.buffers ++ [buffer]) ∧
    (∀ err, (q.SetBufferVar schemaRes engineOk name offset buffer).snd = .error err →
      err ≠ .engineFailure → err ≠ .unrecognizedType →
      (q.SetBufferVar schemaRes engineOk name offset buffer).fst = q) ∧
    ((q.SetBufferVar schemaRes engineOk name offset buffer).snd
        = .error .unrecognizedType →
      (q.SetBufferVar schemaRes engineOk name offset buffer).fst.buffers
        = q.buffers ++ [GoValue.slice .uint64 offset]) ∧
    ((q.SetBufferVar schemaRes engineOk name offset buffer).snd
        = .error .engineFailure →
      (q.SetBufferVar schemaRes engineOk name offset buffer).fst.buffers
        = q.buffers ++ [GoValue.slice .uint64 offset, buffer]) := by
  refine ⟨?_, ?_, ?_, ?_, ?_, ?_, ?_⟩ <;>
    simp only [Query.SetBuffer, Query.SetBufferVar] <;>
    (repeat' split) <;>
    simp_all <;>
    (rename_i heq
     first
     | (cases resolveFieldType_error_eq _ _ _ heq; decide)
     | (cases resolveVarFieldType_error_eq _ _ _ heq; decide))

/-- C4 amended, witness: a type-mismatch failure leaves the query unchanged
and an engine failure keeps the offsets and data slices pinned on the
variable path. -/
theorem failed_bind_state_witness :
    ((emptyQuery.SetBuffer (some exampleSchema) true "a"
        (.slice .int8 [1])).snd = .error .typeMismatch →
      QueryError.typeMismatch ≠ QueryError.engineFailure →
      (emptyQuery.SetBuffer (some exampleSchema) true "a"
        (.slice .int8 [1])).fst = emptyQuery) ∧
    ((emptyQuery.SetBufferVar (some exampleSchema) false "v" [0]
        (.slice .uint8 [104])).snd = .error .engineFailure →
      (emptyQuery.SetBufferVar (some exampleSchema) false "v" [0]
        (.slice .uint8 [104])).fst.buffers
        = emptyQuery.buffers ++ [GoValue.slice .uint64 [0], .slice .uint8 [104]]) := by
  have h := failed_bind_state (some exampleSchema) true emptyQuery "a" []
    (.slice .int8 [1])
  have h2 := failed_bind_state (some exampleSchema) false emptyQuery "v" [0]
    (.slice .uint8 [104])
  exact ⟨fun he hne => (h.2.2.1 _ he hne), fun he => h2.2.2.2.2.2.2 he⟩

/-- C6 counterexample: binding an empty buffer whose element kind differs
from the field datatype kind fails with the type-mismatch error, not the
empty-buffer error, because the kind check precedes the emptiness check. -/
theorem empty_buffer_type_mismatch_first :
    emptyQuery.SetBuffer (some exampleSchema) true "a" (.slice .uint8 [])
      = (emptyQuery, .error .typeMismatch) ∧
    QueryError.typeMismatch ≠ QueryError.emptyBuffer := by decide

/-- C6 amended: binding an empty data buffer never succeeds on either path,
and binding empty offsets never succeeds on the variable path; when the
field resolves and the buffer element kind matches the field datatype kind,
the failure is the empty-buffer error (on the variable path the empty data
check precedes the empty offsets check); earlier resolution or kind
failures report their own error instead. -/
theorem empty_buffer_bind_fails (schemaRes : Option ArraySchema) (engineOk : Bool)
    (q : Query) (name : String) (k : Kind) (offset : List Nat) (D : Datatype)
    (data : List Nat) :
    (∃ err, (q.SetBuffer schemaRes engineOk name (.slice k [])).snd
      = .error err) ∧
    (∃ err, (q.SetBufferVar schemaRes engineOk name offset (.slice k [])).snd
      = .error err) ∧
    (∃ err, (q.SetBufferVar schemaRes engineOk name [] (.slice k data)).snd
      = .error err) ∧
    (∀ schema, schemaRes = some schema →
      resolveFieldType schema name = .ok D →
      (q.SetBuffer schemaRes engineOk name (.slice D.ReflectKind [])).snd
        = .error .emptyBuffer) ∧
    (∀ schema, schemaRes = some schema → name ≠ TILEDB_COORDS →
      resolveFieldType schema name = .ok D →
      (q.SetBufferVar schemaRes engineOk name offset (.slice D.ReflectKind [])).snd
        = .error .emptyBuffer) ∧
    (∀ schema, schemaRes = some schema → name ≠ TILEDB_COORDS →
      resolveFieldType schema name = .ok D → data ≠ [] →
      (q.SetBufferVar schemaRes engineOk name [] (.slice D.ReflectKind data)).snd
        = .error .emptyBuffer) := by
  have hvarres : ∀ schema : ArraySchema, name ≠ TILEDB_COORDS →
      resolveFieldType schema name = .ok D →
      resolveVarFieldType schema name = .ok D := by
    intro schema hne hres
    rw [resolveVarFieldType_eq_resolve schema name hne]
    exact hres
  refine ⟨?_, ?_, ?_, ?_, ?_, ?_⟩
  · simp only [Query.SetBuffer]
    (repeat' split) <;> simp_all
  · simp only [Query.SetBufferVar]
    (repeat' split) <;> simp_all
  · simp only [Query.SetBufferVar]
    (repeat' split) <;> simp_all
  · rintro schema rfl hres
    simp [Query.SetBuffer, hres]
  · rintro schema rfl hne hres
    have := hvarres schema hne hres
    simp only [Query.SetBufferVar]
    rw [this]
    simp
  · rintro schema rfl hne hres hdata
    have := hvarres schema hne hres
    simp only [Query.SetBufferVar]
    rw [this]
    simp [hdata]

/-- C6 amended, witness: empty matching binds on attribute a (fixed) and
attribute v (variable) of exampleSchema report the empty-buffer error. -/
theorem empty_buffer_bind_fails_witness :
    (∃ err, (emptyQuery.SetBuffer (some exampleSchema) true "a"
      (.slice .uint32 [])).snd = .error err) ∧
    (emptyQuery.SetBuffer (some exampleSchema) true "a"
        (.slice (Datatype.ReflectKind .uint32) [])).snd = .error .emptyBuffer ∧
    (emptyQuery.SetBufferVar (some exampleSchema) true "v" [0]
        (.slice (Datatype.ReflectKind .stringUtf8) [])).snd = .error .emptyBuffer ∧
    (emptyQuery.SetBufferVar (some exampleSchema) true "v" []
        (.slice (Datatype.ReflectKind .stringUtf8) [104])).snd
      = .error .emptyBuffer := by
  have h := empty_buffer_bind_fails (some exampleSchema) true emptyQuery "a"
    Kind.uint32 [0] Datatype.uint32 [104]
  have h2 := empty_buffer_bind_fails (some exampleSchema) true emptyQuery "v"
    Kind.uint8 [0] Datatype.stringUtf8 [104]
  refine ⟨h.1, ?_, ?_, ?_⟩
  · exact h.2.2.2.1 exampleSchema rfl (by decide)
  · exact h2.2.2.2.2.1 exampleSchema rfl (by decide) (by decide)
  · exact h2.2.2.2.2.2 exampleSchema rfl (by decide) (by decide) (by decide)

/-- C7: field-name resolution in the buffer operations checks the
coordinate sentinel first, then the dimension names, then the attribute
names; the first match decides the datatype; an unmatched name is an
error; SetBuffer and Buffer both report resolution failures verbatim and
Buffer builds its typed view from the resolved datatype. -/
theorem field_resolution_order (schema : ArraySchema) (name : String) :
    (name = TILEDB_COORDS →
      resolveFieldType schema name = .ok schema.domain.dtype) ∧
    (name ≠ TILEDB_COORDS →
      ∀ dim, schema.domain.DimensionFromName name = some dim →
        resolveFieldType schema name = .ok dim.dtype) ∧
    (name ≠ TILEDB_COORDS → schema.domain.HasDimension name = false →
      ∀ attr, schema.AttributeFromName name = some attr →
        resolveFieldType schema name = .ok attr.dtype) ∧
    (name ≠ TILEDB_COORDS → schema.domain.HasDimension name = false →
      schema.AttributeFromName name = none →
      resolveFieldType schema name = .error .notFound) ∧
    (∀ engineOk sz e, resolveFieldType schema name = .error e →
      Query.Buffer (some schema) engineOk sz name = .error e) ∧
    (∀ D sz, resolveFieldType schema name = .ok D →
      Query.Buffer (some schema) true sz name = .ok (bufferViewOf D sz)) ∧
    (∀ (q : Query) engineOk ek data e, resolveFieldType schema name = .error e →
      (q.SetBuffer (some schema) engineOk name (.slice ek data)).snd
        = .error e) := by
  refine ⟨?_, ?_, ?_, ?_, ?_, ?_, ?_⟩
  · intro hc
    rw [resolveFieldType, if_pos hc]
  · intro hc dim hdim
    have hhas : schema.domain.HasDimension name = true :=
      (hasDimension_iff_find schema.domain name).mpr ⟨dim, hdim⟩
    rw [resolveFieldType, if_neg hc, if_pos hhas, hdim]
  · intro hc hhas attr hattr
    rw [resolveFieldType, if_neg hc, if_neg (by simp [hhas]), hattr]
  · intro hc hhas hattr
    rw [resolveFieldType, if_neg hc, if_neg (by simp [hhas]), hattr]
  · intro engineOk sz e hres
    simp [Query.Buffer, hres]
  · intro D sz hres
    simp [Query.Buffer, hres]
  · intro q engineOk ek data e hres
    simp [Query.SetBuffer, hres]

/-- C7 witness: on exampleSchema the sentinel resolves to the domain type,
the dimension rows resolves to its own type, the attribute a resolves to
its own type, an unknown name is a not-found error propagated by Buffer,
and Buffer views attribute a through its resolved datatype. -/
theorem field_resolution_order_witness :
    resolveFieldType exampleSchema TILEDB_COORDS
      = .ok exampleSchema.domain.dtype ∧
    resolveFieldType exampleSchema "rows" = .ok Datatype.int32 ∧
    resolveFieldType exampleSchema "a" = .ok Datatype.uint32 ∧
    resolveFieldType exampleSchema "zzz" = .error .notFound ∧
    Query.Buffer (some exampleSchema) true 8 "zzz" = .error .notFound ∧
    Query.Buffer (some exampleSchema) true 8 "a"
      = .ok (bufferViewOf .uint32 8) := by
  have h := field_resolution_order exampleSchema "zzz"
  have h2 := field_resolution_order exampleSchema "a"
  have h3 := field_resolution_order exampleSchema "rows"
  have h4 := field_resolution_order exampleSchema TILEDB_COORDS
  refine ⟨h4.1 rfl, ?_, ?_, ?_, ?_, ?_⟩
  · exact h3.2.1 (by decide) ⟨"rows", .int32, 1⟩ (by decide)
  · exact h2.2.2.1 (by decide) (by decide) ⟨"a", .uint32⟩ (by decide)
  · exact h.2.2.2.1 (by decide) (by decide) (by decide)
  · exact h.2.2.2.2.1 true 8 .notFound
      (h.2.2.2.1 (by decide) (by decide) (by decide))
  · exact h2.2.2.2.2.2.1 .uint32 8
      (h2.2.2.1 (by decide) (by decide) ⟨"a", .uint32⟩ (by decide))

/-- C8: when the engine reports an absent byte-count pointer, BufferSize
reports zero data elements and BufferSizeVar reports zero for the
corresponding count, with no error; a present pointer is divided by the
element width (8 bytes for offsets). -/
theorem buffer_size_null_maps_to_zero (schema : ArraySchema) (name : String)
    (D : Datatype) (w : Nat)
    (hres : resolveFieldType schema name = .ok D) (hw : D.Size = some w) :
    Query.BufferSize (some schema) true none name = .ok 0 ∧
    Query.BufferSizeVar (some schema) true none none name = .ok (0, 0) ∧
    (∀ bs, Query.BufferSizeVar (some schema) true none (some bs) name
      = .ok (0, bs / w)) ∧
    (∀ os, Query.BufferSizeVar (some schema) true (some os) none name
      = .ok (os / 8, 0)) := by
  refine ⟨?_, ?_, ?_, ?_⟩ <;>
    simp [Query.BufferSize, Query.BufferSizeVar, hres, hw]

/-- C8 witness at attribute a of exampleSchema. -/
theorem buffer_size_null_maps_to_zero_witness :
    Query.BufferSize (some exampleSchema) true none "a" = .ok 0 ∧
    Query.BufferSizeVar (some exampleSchema) true none none "a" = .ok (0, 0) ∧
    Query.BufferSizeVar (some exampleSchema) true none (some 12) "a"
      = .ok (0, 12 / 4) ∧
    Query.BufferSizeVar (some exampleSchema) true (some 16) none "a"
      = .ok (16 / 8, 0) := by
  have h := buffer_size_null_maps_to_zero exampleSchema "a" .uint32 4
    (by decide) (by decide)
  exact ⟨h.1, h.2.1, h.2.2.1 12, h.2.2.2 16⟩

/-- Every entry of a successful run of the element-count loop comes from an
input entry on which resultElementsFor succeeded. -/
theorem resultElementsLoop_mem (schema : ArraySchema)
    (l : List (String × (Option Nat × Nat))) (m : List (String × (Nat × Nat)))
    (h : resultElementsLoop schema l = .ok m) :
    ∀ name r, (name, r) ∈ m →
      ∃ v, (name, v) ∈ l ∧ resultElementsFor schema name v = .ok r := by
  induction l generalizing m with
  | nil =>
    simp only [resultElementsLoop] at h
    cases h
    simp
  | cons p rest ih =>
    obtain ⟨pname, pv⟩ := p
    simp only [resultElementsLoop] at h
    cases hf : resultElementsFor schema pname pv with
    | error e => rw [hf] at h; cases h
    | ok r0 =>
      rw [hf] at h
      cases hl : resultElementsLoop schema rest with
      | error e => rw [hl] at h; cases h
      | ok tail =>
        rw [hl] at h
        cases h
        intro name r hmem
        rcases List.mem_cons.mp hmem with heq | htail
        · obtain ⟨rfl, rfl⟩ := Prod.mk.injEq .. ▸ heq
          exact ⟨pv, List.mem_cons_self _ _, hf⟩
        · obtain ⟨v, hvmem, hres⟩ := ih tail hl name r htail
          exact ⟨v, List.mem_cons_of_mem _ hvmem, hres⟩

/-- Characterization of one loop step of ResultBufferElements: the
coordinate sentinel reports zero offset elements and divides the data byte
count by the domain width; other fields divide the stored offset byte count
by eight (zero when absent) and the data byte count by the width of the
datatype given by the shared resolution order; an absent offsets pointer
always gives zero offset elements. -/
theorem resultElementsFor_spec (schema : ArraySchema) (name : String)
    (v : Option Nat × Nat) (r : Nat × Nat)
    (h : resultElementsFor schema name v = .ok r) :
    (name = TILEDB_COORDS → r.fst = 0 ∧
      ∃ w, schema.domain.dtype.Size = some w ∧ r.snd = v.snd / w) ∧
    (name ≠ TILEDB_COORDS →
      r.fst = (match v.fst with | some ob => ob / 8 | none => 0) ∧
      ∃ D w, resolveFieldType schema name = .ok D ∧ D.Size = some w ∧
        r.snd = v.snd / w) ∧
    (v.fst = none → r.fst = 0) := by
  unfold resultElementsFor at h
  split at h
  · rename_i hc
    split at h
    · cases h
    · rename_i w hw
      cases h
      refine ⟨fun _ => ⟨rfl, ?_⟩, fun hnc => absurd hc hnc, fun _ => rfl⟩
      exact ⟨w, hw, rfl⟩
  · rename_i hc
    split at h
    · rename_i hhas
      split at h
      · cases h
      · rename_i dim hdim
        split at h
        · cases h
        · rename_i w hw
          cases h
          refine ⟨fun hcc => absurd hcc hc, fun _ => ⟨rfl, ?_⟩,
            fun hob => by simp [offsetElementsOf, hob]⟩
          refine ⟨dim.dtype, w, ?_, hw, rfl⟩
          rw [resolveFieldType, if_neg hc, if_pos hhas, hdim]
    · rename_i hhas
      split at h
      · cases h
      · rename_i attr hattr
        split at h
        · cases h
        · rename_i w hw
          cases h
          refine ⟨fun hcc => absurd hcc hc, fun _ => ⟨rfl, ?_⟩,
            fun hob => by simp [offsetElementsOf, hob]⟩
          refine ⟨attr.dtype, w, ?_, hw, rfl⟩
          rw [resolveFieldType, if_neg hc, if_neg hhas, hattr]

/-- C2: for every field of a successful ResultBufferElements call, the
offset element count is the stored offset byte count divided by the 8-byte
offset width (zero when the stored offsets pointer is absent, in particular
for every fixed-size field), and the data element count is the stored data
byte count divided by the element width of the field datatype, where the
coordinate sentinel divides by the domain element width and other fields by
the width of the datatype given by the shared resolution order. -/
theorem resultBufferElements_division (q : Query) (schema : ArraySchema)
    (m : List (String × (Nat × Nat)))
    (h : q.ResultBufferElements (some schema) = .ok m) :
    ∀ name oe de, (name, (oe, de)) ∈ m →
      ∃ ob db, (name, (ob, db)) ∈ q.resultBufferElements ∧
        (name = TILEDB_COORDS → oe = 0 ∧
          ∃ w, schema.domain.dtype.Size = some w ∧ de = db / w) ∧
        (name ≠ TILEDB_COORDS →
          oe = (match ob with | some x => x / 8 | none => 0) ∧
          ∃ D w, resolveFieldType schema name = .ok D ∧ D.Size = some w ∧
            de = db / w) ∧
        (ob = none → oe = 0) := by
  intro name oe de hmem
  have hloop : resultElementsLoop schema q.resultBufferElements = .ok m := by
    simpa [Query.ResultBufferElements] using h
  obtain ⟨v, hvmem, hres⟩ :=
    resultElementsLoop_mem schema _ m hloop name (oe, de) hmem
  obtain ⟨ob, db⟩ := v
  have hspec := resultElementsFor_spec schema name (ob, db) (oe, de) hres
  exact ⟨ob, db, hvmem, hspec.1, hspec.2.1, hspec.2.2⟩

/-- C2 witness: a query with a fixed attribute binding, a coordinate
binding and a variable attribute binding against exampleSchema; the
variable attribute reports two offset elements and three data elements. -/
theorem resultBufferElements_division_witness :
    ∃ ob db,
      ("v", (ob, db)) ∈
        (Query.mk (some ()) []
          [("a", (none, 16)), (TILEDB_COORDS, (none, 32)),
           ("v", (some 16, 3))]).resultBufferElements ∧
      ("v" = TILEDB_COORDS → 2 = 0 ∧
        ∃ w, exampleSchema.domain.dtype.Size = some w ∧ 3 = db / w) ∧
      ("v" ≠ TILEDB_COORDS →
        2 = (match ob with | some x => x / 8 | none => 0) ∧
        ∃ D w, resolveFieldType exampleSchema "v" = .ok D ∧ D.Size = some w ∧
          3 = db / w) ∧
      (ob = none → 2 = 0) :=
  resultBufferElements_division
    (Query.mk (some ()) []
      [("a", (none, 16)), (TILEDB_COORDS, (none, 32)), ("v", (some 16, 3))])
    exampleSchema
    [("a", (0, 4)), (TILEDB_COORDS, (0, 8)), ("v", (2, 3))]
    (by decide) "v" 2 3 (by decide)

end TileDB
